import Mathlib

/-!
Shallow embedding of `static/js/location-input.js` from the
RoofTop-RainWaterHarvesting repository: the location-capture component
(coordinate synchronisation, debounced geocoding, section navigation)
and the form-submission logic, with theorems checking the spec's claims.

Conventions of the embedding:
* JS numbers are modelled as rationals (`ℚ`); `Number.prototype.toFixed(d)`
  is modelled as rounding to `d` decimal places with ties going up, the
  rounding the ECMAScript spec prescribes for `toFixed`.
* A numeric text field is `Option ℚ`: `none` is the empty field (the empty
  string, the only falsy field value relevant to the validation code).
* Timer-based code (the `debounce` utility) is modelled by explicit
  event-trace processing with a pending-timer state.
-/

/-- Rounding of a rational to the nearest integer, ties going up:
the rounding `Number.prototype.toFixed` performs on the scaled value. -/
def ratRound (q : ℚ) : ℤ := Rat.floor (q + 1/2)

/-- Model of JavaScript `x.toFixed (d)` as the rational value the produced
decimal string denotes. -/
def jsToFixed (d : ℕ) (x : ℚ) : ℚ := (ratRound (x * 10 ^ d) : ℚ) / 10 ^ d

/-- Values appearing in the submitted payload: strings or numbers. -/
inductive JsVal where
  | str (s : String)
  | num (q : ℚ)
deriving DecidableEq

/-- Hexadecimal digit test, for `parseInt`'s hexadecimal branch. -/
def isHexDigitChar (c : Char) : Bool :=
  c.isDigit || (decide ('a' ≤ c) && decide (c ≤ 'f')) ||
    (decide ('A' ≤ c) && decide (c ≤ 'F'))

/-- Value of a hexadecimal digit. -/
def hexDigitVal (c : Char) : ℕ :=
  if c.isDigit then c.toNat - '0'.toNat
  else if 'a' ≤ c ∧ c ≤ 'f' then c.toNat - 'a'.toNat + 10
  else c.toNat - 'A'.toNat + 10

/-- The longest decimal-digit run, signed; `none` models `NaN` (no
digits found). -/
def decRun (sign : ℤ) (l : List Char) : Option ℤ :=
  let ds := l.takeWhile Char.isDigit
  if ds.isEmpty then none
  else some (sign * (ds.foldl (fun a c => a * 10 + (c.toNat - '0'.toNat)) 0 : ℕ))

/-- The longest hexadecimal-digit run, signed; `none` models `NaN` (no
digits found). -/
def hexRun (sign : ℤ) (l : List Char) : Option ℤ :=
  let ds := l.takeWhile isHexDigitChar
  if ds.isEmpty then none
  else some (sign * (ds.foldl (fun a c => a * 16 + hexDigitVal c) 0 : ℕ))

/-- Model of JavaScript `parseInt` with no radix argument: skip leading
whitespace, read an optional sign; a `0x`/`0X` prefix then selects the
hexadecimal radix (the prefix is dropped), otherwise the radix is
decimal; read the longest digit run in that radix; `none` models `NaN`
(no digits found). -/
def jsParseInt (s : String) : Option ℤ :=
  let chars := (s.data.dropWhile Char.isWhitespace)
  let signDigits : ℤ × List Char :=
    match chars with
    | '-' :: rest => (-1, rest)
    | '+' :: rest => (1, rest)
    | l => (1, l)
  match signDigits.2 with
  | '0' :: 'x' :: rest => hexRun signDigits.1 rest
  | '0' :: 'X' :: rest => hexRun signDigits.1 rest
  | l => decRun signDigits.1 l

/-- `s.split ('-')[0]`: the part of the string before the first dash. -/
def beforeDash (s : String) : String := String.mk (s.data.takeWhile (fun c => c != '-'))

/-- `parseInt ((householdSize or "0").split ('-')[0]) or 0` from
`dataToSubmit.household_size` (line 411 of location-input.js). -/
def householdSizeToNum (hs : String) : ℤ :=
  let s := if hs = "" then "0" else hs
  match jsParseInt (beforeDash s) with
  | none => 0
  | some n => n

/-- The open-space category bucket lookup with `or 0` fallback from
`dataToSubmit.open_space_area` (lines 413-415 of location-input.js). -/
def openSpaceToNum (s : String) : ℚ :=
  if s = "none" then 0
  else if s = "small" then 10
  else if s = "medium" then 60
  else if s = "large" then 150
  else 0

/-- The ft² → m² factor `0.092903` from `dataToSubmit.rooftop_area`
(line 412 of location-input.js). -/
def areaFactor : ℚ := 92903 / 1000000

/-- `(parseFloat (rooftopArea or 0) * 0.092903).toFixed (2)` from
`dataToSubmit.rooftop_area` (line 412 of location-input.js), on the
parsed numeric field value (`none`, the empty field, parses to `0`
via the `or 0` default). -/
def rooftopAreaConv (a : Option ℚ) : ℚ := jsToFixed 2 ((a.getD 0) * areaFactor)

/-- The DOM field values `submitData` reads (lines 340-375 of
location-input.js). Numeric inputs are `Option ℚ` (`none` = empty field);
the radio groups are `Option String` (`none` = nothing checked, the
`or` defaults of lines 361-362 apply); the water-source checkboxes are
the list of checked values. -/
structure FormState where
  latitude : Option ℚ
  longitude : Option ℚ
  address : String
  pincode : String
  stateName : String
  district : String
  town : String
  fullName : String
  contactNumber : String
  householdSize : String
  propertyType : Option String
  roofType : Option String
  rooftopArea : Option ℚ
  openSpaceArea : String
  budgetRange : String
  intendedUse : String
  storageMonths : String
  waterSources : List String
deriving DecidableEq

/-- The `dataToSubmit` object (lines 405-420 of location-input.js), as the
ordered key/value list the hidden form is built from. -/
def dataToSubmit (fs : FormState) : List (String × JsVal) :=
  [ ("name", .str fs.fullName),
    ("location_name", .str fs.address),
    ("user_lat", .num (fs.latitude.getD 0)),
    ("user_lon", .num (fs.longitude.getD 0)),
    ("roof_type", .str (fs.roofType.getD "mixed")),
    ("household_size", .num (householdSizeToNum fs.householdSize)),
    ("rooftop_area", .num (rooftopAreaConv fs.rooftopArea)),
    ("open_space_area", .num (openSpaceToNum fs.openSpaceArea)),
    ("property_type", .str (fs.propertyType.getD "Residential")),
    ("existing_water_sources", .str (String.intercalate "," fs.waterSources)),
    ("budget_preference", .str fs.budgetRange),
    ("intended_use", .str fs.intendedUse) ]

/-- The hidden form POST built by `submitData` (lines 400-436). -/
structure PostRequest where
  method : String
  action : String
  fields : List (String × JsVal)
deriving DecidableEq

/-- Outcome of invoking `submitData`: blocked by a validation alert, or a
native form POST. -/
inductive SubmitResult where
  | blocked (alertMsg : String)
  | posted (req : PostRequest)
deriving DecidableEq

/-- The `requiredFields` array of `submitData` (lines 378-384): the
emptiness flag (`not req.field`, i.e. the falsy test on the field string)
paired with the reported name, in source order. -/
def requiredFlags (fs : FormState) : List (Bool × String) :=
  [ (decide (fs.latitude = none), "Latitude"),
    (decide (fs.longitude = none), "Longitude"),
    (decide (fs.fullName = ""), "Full Name"),
    (fs.rooftopArea = none, "Rooftop Area"),
    (decide (fs.openSpaceArea = ""), "Open Space Area") ]

/-- `window.submitData` (lines 338-437 of location-input.js): the first
empty required field blocks with an alert naming it; otherwise the hidden
form with `dataToSubmit` is POSTed to `/submit_form`. -/
def submitData (fs : FormState) : SubmitResult :=
  match (requiredFlags fs).find? (fun p => p.1) with
  | some p => .blocked ("Please provide " ++ p.2)
  | none => .posted ⟨"POST", "/submit_form", dataToSubmit fs⟩

/-- One geocoding feature as `updateFromMarker` reads it: `place_name`
and the `context` array of `(id, text)` entries; a missing `context`
(the `?.` access of lines 162-165) is the empty list. -/
structure GeoFeature where
  placeName : String
  context : List (String × String)
deriving DecidableEq

/-- Outcome of a geocoding fetch: a network/parse error, or a parsed
response with its (possibly empty) feature list. -/
inductive GeoResponse where
  | fail
  | ok (features : List GeoFeature)
deriving DecidableEq

/-- JavaScript `s.startsWith (pre)`, on the character lists. -/
def strStartsWith (s pre : String) : Bool := pre.data.isPrefixOf s.data

/-- `context.find (c => c.id.startsWith (pre)).text or ""` from lines
162-165 of location-input.js. -/
def ctxFind (pre : String) (ctx : List (String × String)) : String :=
  match ctx.find? (fun c => strStartsWith c.1 pre) with
  | some c => c.2
  | none => ""

/-- The address-derived fields written by reverse geocoding: the
`address`, `pincode`, `state`, `district` and `town` inputs. -/
structure AddressFields where
  address : String
  pincode : String
  stateName : String
  district : String
  town : String
deriving DecidableEq

/-- The geocoding part of `updateFromMarker` (lines 153-174 of
location-input.js): on a response with at least one feature, populate
the address fields from the first feature; on an empty feature list or
a caught error, leave them as they are (the error is only logged). -/
def applyGeocode (r : GeoResponse) (a : AddressFields) : AddressFields :=
  match r with
  | .fail => a
  | .ok [] => a
  | .ok (f :: _) =>
    { address := f.placeName,
      pincode := ctxFind "postcode" f.context,
      stateName := ctxFind "region" f.context,
      district := ctxFind "district" f.context,
      town := ctxFind "place" f.context }

/-- Effect of a search invocation on the suggestion list. -/
inductive SuggestDisplay where
  | hidden
  | shown (items : List String)
  | unchanged
deriving DecidableEq

/-- The body of `debouncedAddressSearch` (lines 216-250 of
location-input.js), as a function of the input string and the fetch
outcome: returns whether a network call is issued, and the effect on the
suggestion list.  Inputs shorter than 3 characters hide the list and
return before any fetch; a caught fetch error changes nothing (it is
logged); an empty feature list hides the list; otherwise the feature
names are shown. -/
def addressSearch (input : String) (r : GeoResponse) : Bool × SuggestDisplay :=
  if input.length < 3 then (false, .hidden)
  else
    match r with
    | .fail => (true, .unchanged)
    | .ok [] => (true, .hidden)
    | .ok feats => (true, .shown (feats.map GeoFeature.placeName))

/-- The two form sections toggled by `nextSection`/`previousSection`. -/
inductive Section where
  | locationEntry
  | dataEntry
deriving DecidableEq

/-- The state `window.nextSection` reads and writes: the active section
and the latitude/longitude fields (`none` = empty, the falsy case of the
guard on line 319). -/
structure NavState where
  active : Section
  latitude : Option ℚ
  longitude : Option ℚ
deriving DecidableEq

/-- `window.nextSection` (lines 315-326 of location-input.js): alert and
leave the state unchanged when either coordinate field is empty,
otherwise activate the data-entry section. -/
def nextSection (st : NavState) : NavState × Option String :=
  if st.latitude = none ∨ st.longitude = none then
    (st, some "Please provide valid coordinates before proceeding.")
  else
    ({ st with active := .dataEntry }, none)

/-- The state of the coordinate synchroniser: the marker position and the
two numeric text fields (`none` = empty). -/
structure LocState where
  markerLat : ℚ
  markerLng : ℚ
  latField : Option ℚ
  lngField : Option ℚ
deriving DecidableEq

/-- The field updates of `updateFromMarker` (lines 146-151 of
location-input.js): both text fields receive the coordinate rounded by
`toFixed (5)`. -/
def updateFromMarkerFields (lat lng : ℚ) (s : LocState) : LocState :=
  { s with latField := some (jsToFixed 5 lat), lngField := some (jsToFixed 5 lng) }

/-- The map-click / marker-drag / geolocation / search-selection path
(lines 122-126, 129-133, 200-205, 235-241): `marker.setLngLat` with the
exact pair, then `updateFromMarker` on it. -/
def setMarkerAndUpdate (lat lng : ℚ) (s : LocState) : LocState :=
  updateFromMarkerFields lat lng { s with markerLat := lat, markerLng := lng }

/-- `updateMarkerFromInputs` (lines 184-194 of location-input.js): parse
both fields; when both parse and are in range, move the marker to the
exact parsed pair and hand that pair to the debounced
`updateFromMarker`; otherwise do nothing.  The second component is the
argument of the pending debounced call, if one was scheduled. -/
def updateMarkerFromInputs (s : LocState) : LocState × Option (ℚ × ℚ) :=
  match s.latField, s.lngField with
  | some lat, some lng =>
    if -90 ≤ lat ∧ lat ≤ 90 ∧ -180 ≤ lng ∧ lng ≤ 180 then
      ({ s with markerLat := lat, markerLng := lng }, some (lat, lng))
    else (s, none)
  | _, _ => (s, none)

/-- Completion of the debounced `updateFromMarker` call scheduled by
`updateMarkerFromInputs`, once the 500ms window elapses. -/
def afterDebounce : LocState × Option (ℚ × ℚ) → LocState
  | (s, some c) => updateFromMarkerFields c.1 c.2 s
  | (s, none) => s

/-- The debounce window of `debouncedUpdateFromMarker` (line 178), in
milliseconds. -/
def debounceDelay : ℕ := 500

/-- The input sources that change the current coordinate. -/
inductive EvKind where
  | mapClick
  | dragEnd
  | geoLocate
  | searchSelect
  | textInput
deriving DecidableEq

/-- A timestamped coordinate change: time in milliseconds, source, and
the new coordinate. -/
structure Ev where
  time : ℕ
  kind : EvKind
  lat : ℚ
  lng : ℚ
deriving DecidableEq

/-- The pending debounce timer of the `debounce` closure (lines 25-32):
its firing time and the coordinate captured for the delayed call. -/
def Pending : Type := Option (ℕ × ℚ × ℚ)

/-- Fire the pending timer if its time has arrived by time `t`. -/
def fireDue (t : ℕ) (p : Pending) : List (ℕ × ℚ × ℚ) × Pending :=
  match p with
  | some q => if q.1 ≤ t then ([q], none) else ([], some q)
  | none => ([], none)

/-- Dispatch of one coordinate-change event, as wired in
location-input.js: map click (line 125), marker drag (line 132),
geolocation (line 204) and search selection (line 239) call
`updateFromMarker` immediately; only the text-field path (line 192)
goes through `debouncedUpdateFromMarker`, which clears the pending
timer and schedules a new one 500ms ahead.  Returns the reverse-geocoding
network calls emitted (time and coordinate) and the new timer state. -/
def processEvent (p : Pending) (e : Ev) : List (ℕ × ℚ × ℚ) × Pending :=
  let fp := fireDue e.time p
  match e.kind with
  | .textInput => (fp.1, some (e.time + debounceDelay, e.lat, e.lng))
  | _ => (fp.1 ++ [(e.time, e.lat, e.lng)], fp.2)

/-- Process a time-ordered trace of coordinate changes, flushing the
pending timer at the end: the list of reverse-geocoding calls issued,
each with its time and coordinate. -/
def runEvents : List Ev → Pending → List (ℕ × ℚ × ℚ)
  | [], some q => [q]
  | [], none => []
  | e :: es, p =>
    let op := processEvent p e
    op.1 ++ runEvents es op.2

/-- A trace is a rapid succession: time-ordered, each event less than the
debounce window after the previous one. -/
def rapidChain : List Ev → Bool
  | [] => true
  | [_] => true
  | a :: b :: r => (a.time ≤ b.time && b.time < a.time + debounceDelay) && rapidChain (b :: r)

/-- A concrete form state with all required fields non-empty, used to
instantiate the theorems below. -/
def sampleForm : FormState :=
  { latitude := some 10, longitude := some 20, address := "addr",
    pincode := "", stateName := "", district := "", town := "",
    fullName := "A", contactNumber := "", householdSize := "2-4",
    propertyType := none, roofType := none, rooftopArea := some 100,
    openSpaceArea := "medium", budgetRange := "low", intendedUse := "drinking",
    storageMonths := "", waterSources := ["well"] }

/-- A concrete address-field state used to instantiate the theorems below. -/
def sampleAddr : AddressFields :=
  { address := "a1", pincode := "p1", stateName := "s1", district := "d1", town := "t1" }

/-- Processing one text-input event whose arrival does not let the
pending timer fire: the timer is cleared and rescheduled, no call is
emitted. -/
theorem runEvents_cons_text (e : Ev) (es : List Ev)
    (hk : e.kind = EvKind.textInput) (p : Pending)
    (hnofire : (fireDue e.time p).1 = []) :
    runEvents (e :: es) p =
      runEvents es (some (e.time + debounceDelay, e.lat, e.lng)) := by
  simp [runEvents, processEvent, hk, hnofire]

/-- For a trace of text-input coordinate changes in rapid succession
(each event less than 500ms after the previous), with any pending timer
due strictly after the first event, the debounce emits exactly one
reverse-geocoding call: for the last coordinate, 500ms after the last
event. -/
theorem runEvents_textChain (es : List Ev) : ∀ (e : Ev) (p : Pending),
    (∀ x ∈ e :: es, x.kind = EvKind.textInput) →
    rapidChain (e :: es) = true →
    (∀ q : ℕ × ℚ × ℚ, p = some q → e.time < q.1) →
    runEvents (e :: es) p =
      [((es.getLastD e).time + debounceDelay, (es.getLastD e).lat, (es.getLastD e).lng)] := by
  induction es with
  | nil =>
    intro e p hall _ hp
    have hk : e.kind = EvKind.textInput := hall e (by simp)
    have hnofire : (fireDue e.time p).1 = [] := by
      cases p with
      | none => simp [fireDue]
      | some q => simp [fireDue, Nat.not_le.mpr (hp q rfl)]
    rw [runEvents_cons_text e [] hk p hnofire]
    simp [runEvents, List.getLastD]
  | cons b r ih =>
    intro e p hall hchain hp
    have hk : e.kind = EvKind.textInput := hall e (by simp)
    have hchain' : (e.time ≤ b.time ∧ b.time < e.time + debounceDelay) ∧
        rapidChain (b :: r) = true := by
      simpa [rapidChain, Bool.and_eq_true] using hchain
    have hall' : ∀ x ∈ b :: r, x.kind = EvKind.textInput := by
      intro x hx
      exact hall x (by simp [hx])
    have hstep : ∀ q : ℕ × ℚ × ℚ,
        (some (e.time + debounceDelay, e.lat, e.lng) : Pending) = some q → b.time < q.1 := by
      intro q hq
      cases Option.some.inj hq
      exact hchain'.1.2
    have hrec := ih b (some (e.time + debounceDelay, e.lat, e.lng)) hall' hchain'.2 hstep
    have hnofire : (fireDue e.time p).1 = [] := by
      cases p with
      | none => simp [fireDue]
      | some q => simp [fireDue, Nat.not_le.mpr (hp q rfl)]
    rw [runEvents_cons_text e (b :: r) hk p hnofire, hrec, List.getLastD_cons]

section
attribute [local semireducible] Rat.add Rat.mul Rat.inv Rat.sub

/-- C1, as stated by the spec, is false on the code: it claims every
rapid succession of coordinate changes, regardless of input source,
issues at most one reverse-geocoding call.  Two map clicks 100ms apart
each issue an immediate call (map click bypasses the debounce), so this
rapid trace issues two calls, the first not for the final value. -/
theorem debounce_all_sources_cex :
    rapidChain [⟨0, .mapClick, 1, 1⟩, ⟨100, .mapClick, 2, 2⟩] = true ∧
    runEvents [⟨0, .mapClick, 1, 1⟩, ⟨100, .mapClick, 2, 2⟩] none =
      [(0, 1, 1), (100, 2, 2)] ∧
    (runEvents [⟨0, .mapClick, 1, 1⟩, ⟨100, .mapClick, 2, 2⟩] none).length = 2 := by
  decide

/-- C1 (amended): only coordinate changes coming from the
latitude/longitude text fields are debounced at 500ms — a rapid
succession of text-field changes issues exactly one reverse-geocoding
call, for the final value, 500ms after the last change — while a change
from any other source (map click, marker drag, geolocation,
search-result selection) issues an immediate call. -/
theorem debounce_text_field_only :
    (∀ (e : Ev) (es : List Ev),
      (∀ x ∈ e :: es, x.kind = EvKind.textInput) →
      rapidChain (e :: es) = true →
      runEvents (e :: es) none =
        [((es.getLastD e).time + debounceDelay,
          (es.getLastD e).lat, (es.getLastD e).lng)])
    ∧ (∀ d : Ev, d.kind ≠ EvKind.textInput →
      runEvents [d] none = [(d.time, d.lat, d.lng)]) := by
  constructor
  · intro e es hall hchain
    exact runEvents_textChain es e none hall hchain (fun q hq => by cases hq)
  · intro d hd
    cases hk : d.kind <;>
      simp_all [runEvents, processEvent, fireDue]

/-- Witness for C1 (amended): two text-field changes 100ms apart yield
the single call (600, 2, 2); a lone map click at 50ms yields the
immediate call (50, 3, 4). -/
theorem debounce_text_field_only_witness :
    runEvents [⟨0, .textInput, 1, 1⟩, ⟨100, .textInput, 2, 2⟩] none = [(600, 2, 2)] ∧
    runEvents [⟨50, .mapClick, 3, 4⟩] none = [(50, 3, 4)] := by
  constructor
  · have h := debounce_text_field_only.1 ⟨0, .textInput, 1, 1⟩
      [⟨100, .textInput, 2, 2⟩] (by decide) (by decide)
    simpa [List.getLastD, debounceDelay] using h
  · exact debounce_text_field_only.2 ⟨50, .mapClick, 3, 4⟩ (by decide)

/-- C2: for every valid pair (latitude in [-90,90], longitude in
[-180,180]) and every starting state, the map-interaction path
(click/drag/geolocation/search selection: `setLngLat` then
`updateFromMarker`) and the text-field path (`updateMarkerFromInputs`
followed by the debounced `updateFromMarker`) both leave the marker at
exactly that pair and both numeric fields at the pair rounded to 5
decimal places. -/
theorem coordinate_sync (lat lng : ℚ) (s : LocState)
    (h1 : -90 ≤ lat) (h2 : lat ≤ 90) (h3 : -180 ≤ lng) (h4 : lng ≤ 180) :
    setMarkerAndUpdate lat lng s =
      { markerLat := lat, markerLng := lng,
        latField := some (jsToFixed 5 lat), lngField := some (jsToFixed 5 lng) }
    ∧ afterDebounce (updateMarkerFromInputs
        { s with latField := some lat, lngField := some lng }) =
      { markerLat := lat, markerLng := lng,
        latField := some (jsToFixed 5 lat), lngField := some (jsToFixed 5 lng) } := by
  constructor
  · rfl
  · simp [updateMarkerFromInputs, afterDebounce, updateFromMarkerFields, h1, h2, h3, h4]

/-- Witness for C2 at (10, 20) from the zero state. -/
theorem coordinate_sync_witness :
    setMarkerAndUpdate 10 20 ⟨0, 0, none, none⟩ =
      { markerLat := 10, markerLng := 20,
        latField := some (jsToFixed 5 10), lngField := some (jsToFixed 5 20) }
    ∧ afterDebounce (updateMarkerFromInputs
        { markerLat := 0, markerLng := 0, latField := some 10, lngField := some 20 }) =
      { markerLat := 10, markerLng := 20,
        latField := some (jsToFixed 5 10), lngField := some (jsToFixed 5 20) } :=
  coordinate_sync 10 20 ⟨0, 0, none, none⟩
    (by decide) (by decide) (by decide) (by decide)

/-- C3: submission is blocked with an alert naming the first missing
field — in the source order Latitude, Longitude, Full Name, Rooftop
Area, Open Space Area — and no POST is built; the POST (to
`/submit_form`, with the `dataToSubmit` fields) is built and submitted
exactly when all five required fields are non-empty. -/
theorem submit_validation :
    (∀ fs : FormState, fs.latitude = none →
      submitData fs = .blocked "Please provide Latitude")
    ∧ (∀ fs : FormState, fs.latitude ≠ none → fs.longitude = none →
      submitData fs = .blocked "Please provide Longitude")
    ∧ (∀ fs : FormState, fs.latitude ≠ none → fs.longitude ≠ none →
      fs.fullName = "" →
      submitData fs = .blocked "Please provide Full Name")
    ∧ (∀ fs : FormState, fs.latitude ≠ none → fs.longitude ≠ none →
      fs.fullName ≠ "" → fs.rooftopArea = none →
      submitData fs = .blocked "Please provide Rooftop Area")
    ∧ (∀ fs : FormState, fs.latitude ≠ none → fs.longitude ≠ none →
      fs.fullName ≠ "" → fs.rooftopArea ≠ none → fs.openSpaceArea = "" →
      submitData fs = .blocked "Please provide Open Space Area")
    ∧ (∀ fs : FormState, fs.latitude ≠ none → fs.longitude ≠ none →
      fs.fullName ≠ "" → fs.rooftopArea ≠ none → fs.openSpaceArea ≠ "" →
      submitData fs = .posted ⟨"POST", "/submit_form", dataToSubmit fs⟩) := by
  refine ⟨?_, ?_, ?_, ?_, ?_, ?_⟩ <;>
    intro fs <;> intros <;>
    simp_all [submitData, requiredFlags, List.find?]

/-- Witness for C3: a form missing only the latitude is blocked naming
Latitude; the complete sample form is POSTed. -/
theorem submit_validation_witness :
    submitData { sampleForm with latitude := none } =
      .blocked "Please provide Latitude"
    ∧ submitData sampleForm =
      .posted ⟨"POST", "/submit_form", dataToSubmit sampleForm⟩ :=
  ⟨submit_validation.1 _ rfl,
   submit_validation.2.2.2.2.2 sampleForm
     (by decide) (by decide) (by decide) (by decide) (by decide)⟩

/-- C4: every POST that `submitData` issues is a form POST to the fixed
endpoint `/submit_form` whose field names are exactly the fixed
twelve-key set, in the `dataToSubmit` order, with no other fields. -/
theorem post_shape (fs : FormState) (req : PostRequest)
    (h : submitData fs = .posted req) :
    req.method = "POST" ∧ req.action = "/submit_form" ∧
    req.fields.map Prod.fst =
      ["name", "location_name", "user_lat", "user_lon", "roof_type",
       "household_size", "rooftop_area", "open_space_area", "property_type",
       "existing_water_sources", "budget_preference", "intended_use"] := by
  rw [submitData] at h
  cases hfind : (requiredFlags fs).find? (fun p => p.1) with
  | some p => rw [hfind] at h; cases h
  | none =>
    rw [hfind] at h
    cases h
    exact ⟨rfl, rfl, rfl⟩

/-- Witness for C4 at the sample form. -/
theorem post_shape_witness :
    (⟨"POST", "/submit_form", dataToSubmit sampleForm⟩ : PostRequest).fields.map Prod.fst =
      ["name", "location_name", "user_lat", "user_lon", "roof_type",
       "household_size", "rooftop_area", "open_space_area", "property_type",
       "existing_water_sources", "budget_preference", "intended_use"] :=
  (post_shape sampleForm ⟨"POST", "/submit_form", dataToSubmit sampleForm⟩ rfl).2.2

/-- C6: the rooftop-area value submitted in the payload multiplies the
entered value by the fixed factor 0.092903 and rounds to two decimal
places; an input of 100 yields 9.29. -/
theorem rooftop_area_conversion :
    (∀ fs : FormState, (dataToSubmit fs).lookup "rooftop_area" =
      some (.num (jsToFixed 2 ((fs.rooftopArea.getD 0) * areaFactor))))
    ∧ areaFactor = 92903 / 1000000
    ∧ rooftopAreaConv (some 100) = 929 / 100 := by
  refine ⟨fun fs => rfl, rfl, ?_⟩
  decide

/-- C7: reverse geocoding leaves every address-derived field unchanged
on a failed fetch or an empty feature list, and populates all five from
the first feature otherwise. -/
theorem reverse_geocode_fields :
    (∀ (r : GeoResponse) (a : AddressFields),
      r = .fail ∨ r = .ok [] → applyGeocode r a = a)
    ∧ (∀ (f : GeoFeature) (fl : List GeoFeature) (a : AddressFields),
      applyGeocode (.ok (f :: fl)) a =
        { address := f.placeName,
          pincode := ctxFind "postcode" f.context,
          stateName := ctxFind "region" f.context,
          district := ctxFind "district" f.context,
          town := ctxFind "place" f.context }) := by
  constructor
  · rintro r a (rfl | rfl) <;> rfl
  · intro f fl a
    rfl

/-- Witness for C7: error and empty responses both leave the sample
address fields untouched. -/
theorem reverse_geocode_fields_witness :
    applyGeocode .fail sampleAddr = sampleAddr
    ∧ applyGeocode (.ok []) sampleAddr = sampleAddr :=
  ⟨reverse_geocode_fields.1 .fail sampleAddr (Or.inl rfl),
   reverse_geocode_fields.1 (.ok []) sampleAddr (Or.inr rfl)⟩

/-- C8: the address-search handler issues no network call and hides the
suggestion list for inputs shorter than 3 characters, and issues a call
for every input of length at least 3, whatever the response. -/
theorem search_min_length (input : String) (r : GeoResponse) :
    (input.length < 3 → addressSearch input r = (false, .hidden))
    ∧ (3 ≤ input.length → (addressSearch input r).1 = true) := by
  constructor
  · intro h
    simp [addressSearch, h]
  · intro h
    cases r with
    | fail => simp [addressSearch, Nat.not_lt.mpr h]
    | ok l => cases l <;> simp [addressSearch, Nat.not_lt.mpr h]

/-- Witness for C8: a 2-character input makes no call and hides the
list; a 3-character input makes a call. -/
theorem search_min_length_witness :
    addressSearch "ab" .fail = (false, .hidden)
    ∧ (addressSearch "abc" .fail).1 = true :=
  ⟨(search_min_length "ab" .fail).1 (by decide),
   (search_min_length "abc" .fail).2 (by decide)⟩

/-- C9: the forward section transition is blocked — alert shown, state
unchanged — exactly when the latitude or longitude field is empty, and
otherwise activates the data-entry section with no alert. -/
theorem next_section_guard (st : NavState) :
    (st.latitude = none ∨ st.longitude = none →
      nextSection st =
        (st, some "Please provide valid coordinates before proceeding."))
    ∧ (st.latitude ≠ none → st.longitude ≠ none →
      nextSection st = ({ st with active := .dataEntry }, none)) := by
  constructor
  · intro h
    simp [nextSection, h]
  · intro h1 h2
    simp [nextSection, h1, h2]

/-- Witness for C9: an empty latitude blocks; a filled pair proceeds to
the data-entry section. -/
theorem next_section_guard_witness :
    nextSection ⟨.locationEntry, none, some 20⟩ =
      (⟨.locationEntry, none, some 20⟩,
        some "Please provide valid coordinates before proceeding.")
    ∧ nextSection ⟨.locationEntry, some 10, some 20⟩ =
      (⟨.dataEntry, some 10, some 20⟩, none) :=
  ⟨(next_section_guard ⟨.locationEntry, none, some 20⟩).1 (Or.inl rfl),
   (next_section_guard ⟨.locationEntry, some 10, some 20⟩).2
     (by decide) (by decide)⟩

/-- C10: the household_size payload value is computed by
`householdSizeToNum`: the integer `parseInt` reads from the part of the
field before the first dash (hexadecimal for a 0x/0X prefix, decimal
otherwise), with 0 for an empty field or an unparsable part; in
particular the range "2-4" submits 2, and "0x1A" submits 26. -/
theorem household_size_derivation :
    (∀ fs : FormState, (dataToSubmit fs).lookup "household_size" =
      some (.num (householdSizeToNum fs.householdSize)))
    ∧ householdSizeToNum "" = 0
    ∧ householdSizeToNum "2-4" = 2
    ∧ householdSizeToNum "0x1A" = 26
    ∧ (∀ s : String, s ≠ "" → jsParseInt (beforeDash s) = none →
      householdSizeToNum s = 0)
    ∧ (∀ (s : String) (n : ℤ), s ≠ "" → jsParseInt (beforeDash s) = some n →
      householdSizeToNum s = n) := by
  refine ⟨fun fs => rfl, by decide, by decide, by decide, ?_, ?_⟩
  · intro s h1 h2
    simp [householdSizeToNum, h1, h2]
  · intro s n h1 h2
    simp [householdSizeToNum, h1, h2]

/-- Witness for C10: an unparsable field submits 0, "12-15" submits 12,
and the hexadecimal "0x1A" submits 26. -/
theorem household_size_derivation_witness :
    householdSizeToNum "abc" = 0 ∧ householdSizeToNum "12-15" = 12
    ∧ householdSizeToNum "0x1A" = 26 :=
  ⟨household_size_derivation.2.2.2.2.1 "abc" (by decide) (by decide),
   household_size_derivation.2.2.2.2.2 "12-15" 12 (by decide) (by decide),
   household_size_derivation.2.2.2.2.2 "0x1A" 26 (by decide) (by decide)⟩

end
